import Mathlib

/-!
Shallow embedding of `aleph/model/crawler_state.py` (the Run State Ledger).

The SQL table of `CrawlerState` rows is modelled as a list of records held in
insertion order together with the id-allocation sequence (`Ledger`).  Database
timestamps (`datetime`) are modelled as `Int` values measured in minutes, so
that `TIMEOUT = timedelta(minutes=60)` becomes the integer 60.  Nullable
columns become `Option` fields.  The external metadata collaborator
(`aleph.metadata.Metadata` together with `expand_json`) is modelled as a
structure carrying the four extracted fields and the already-flattened
attribute mapping that `expand_json(meta.to_attr_dict(compute=True))`
produces.
-/

/-- One row of the `crawler_state` table.  Field names follow the source
columns (`src/aleph/model/crawler_state.py`, lines 18-30).  `id` and
`created_at` are assigned at insertion; nullable columns are `Option`. -/
structure CrawlerState where
  id : Nat
  crawler_id : String
  crawler_run : Option String
  content_hash : Option String
  foreign_id : Option String
  status : String
  error_type : Option String
  error_message : Option String
  error_details : Option String
  meta : Option (List (String × String))
  collection_id : Int
  created_at : Int
deriving DecidableEq

/-- The append-only table plus the unique-id allocation sequence. -/
structure Ledger where
  records : List CrawlerState
  nextId : Nat
deriving DecidableEq

/-- The empty table, with the id sequence at its start. -/
def emptyLedger : Ledger := { records := [], nextId := 1 }

/-- The external item descriptor consumed by `_from_meta`: the fields
`crawler`, `crawler_run`, `foreign_id`, `content_hash` read from it, and the
flat mapping produced by the external collaborator
`expand_json(meta.to_attr_dict(compute=True))`. -/
structure Metadata where
  crawler : String
  crawler_run : Option String
  foreign_id : Option String
  content_hash : Option String
  attr_dict : List (String × String)
deriving DecidableEq

namespace CrawlerState

/-- `TIMEOUT = timedelta(minutes=60)`, in model time units (minutes). -/
def TIMEOUT : Int := 60

/-- `STATUS_OK = 'ok'`. -/
def STATUS_OK : String := "ok"

/-- `STATUS_FAIL = 'fail'`. -/
def STATUS_FAIL : String := "fail"

/-- Committing a new row: the id sequence assigns the next id, the
`created_at` column default `datetime.utcnow` stamps the current time, and
the row is appended to the table.  Returns the new ledger and the row. -/
def addRecord (st : Ledger) (now : Int) (r : CrawlerState) :
    Ledger × CrawlerState :=
  let r' := { r with id := st.nextId, created_at := now }
  ({ records := st.records ++ [r'], nextId := st.nextId + 1 }, r')

/-- `CrawlerState._from_meta(meta, collection_id)` (lines 32-42): builds a row
from the item descriptor; `status` is filled in by the caller and the
error columns stay at their NULL default. -/
def _from_meta (meta : Metadata) (collection_id : Int) : CrawlerState :=
  { id := 0
    collection_id := collection_id
    crawler_id := meta.crawler
    crawler_run := meta.crawler_run
    foreign_id := meta.foreign_id
    content_hash := meta.content_hash
    meta := some meta.attr_dict
    status := ""
    error_type := none
    error_message := none
    error_details := none
    created_at := 0 }

/-- `CrawlerState.store_stub(collection_id, crawler_id, crawler_run)`
(lines 44-53): the run-start marker row. -/
def store_stub (st : Ledger) (now : Int) (collection_id : Int)
    (crawler_id : String) (crawler_run : Option String) :
    Ledger × CrawlerState :=
  addRecord st now
    { id := 0
      collection_id := collection_id
      crawler_id := crawler_id
      crawler_run := crawler_run
      content_hash := none
      foreign_id := none
      error_type := some "init"
      error_message := none
      error_details := none
      meta := none
      status := STATUS_OK
      created_at := 0 }

/-- `CrawlerState.store_ok(meta, collection_id)` (lines 55-59). -/
def store_ok (st : Ledger) (now : Int) (meta : Metadata)
    (collection_id : Int) : Ledger × CrawlerState :=
  addRecord st now { _from_meta meta collection_id with status := STATUS_OK }

/-- `CrawlerState.store_fail(meta, collection_id, error_type, error_message,
error_details)` (lines 61-69). -/
def store_fail (st : Ledger) (now : Int) (meta : Metadata)
    (collection_id : Int) (error_type : Option String := none)
    (error_message : Option String := none)
    (error_details : Option String := none) : Ledger × CrawlerState :=
  addRecord st now
    { _from_meta meta collection_id with
      status := STATUS_FAIL
      error_type := error_type
      error_message := error_message
      error_details := error_details }

/-- One executable refinement of `ORDER BY created_at DESC LIMIT 1` over a
list of rows held in insertion order (lines 75-77): it picks a row with
maximal `created_at`.  The query has no secondary sort key, so the engine's
choice among rows with equal `created_at` is unspecified; this function
resolves that choice toward the most recently inserted row only so that
`crawler_stats` has an executable model.  `isLastCreatedRow` states the
engine-independent guarantee, and no theorem about the returned row's
identity relies on this tie choice. -/
def lastRecord : List CrawlerState → Option CrawlerState
  | [] => none
  | r :: rest =>
    match lastRecord rest with
    | none => some r
    | some b => if b.created_at ≥ r.created_at then some b else some r

/-- `CrawlerState.crawler_last_run(crawler_id)` (lines 71-80): the
`crawler_run` and `created_at` of the most recently created row for the
crawler, or `(None, None)` when the crawler has no rows. -/
def crawler_last_run (crawler_id : String) (st : Ledger) :
    Option String × Option Int :=
  match lastRecord (st.records.filter (fun r => r.crawler_id == crawler_id))
    with
  | none => (none, none)
  | some r => (r.crawler_run, some r.created_at)

/-- Python truthiness of `last_run_id : Option String`: `None` and the empty
string are falsy (the `if last_run_id else` guards on lines 100 and 102). -/
def truthy : Option String → Bool
  | none => false
  | some s => !(s == "")

/-- The per-scope `{ok, fail}` pair of `crawler_stats`. -/
structure ScopeStats where
  ok : Int
  fail : Int
deriving DecidableEq

/-- The `last` scope of `crawler_stats`, with the `updated` and `run_id`
entries attached on lines 104-105. -/
structure LastStats where
  ok : Int
  fail : Int
  updated : Option Int
  run_id : Option String
deriving DecidableEq

/-- The dictionary returned by `crawler_stats`. -/
structure RunStats where
  running : Bool
  last : LastStats
  all : ScopeStats
deriving DecidableEq

/-- `CrawlerState.crawler_stats(crawler_id)` (lines 82-106), with the current
time `datetime.utcnow()` passed explicitly.  `func.count` over a filtered
query is the length of the filtered list; `cls.crawler_run == last_run_id`
follows SQLAlchemy semantics, where comparison against `None` compiles to
`IS NULL` — exactly `Option` equality. -/
def crawler_stats (crawler_id : String) (now : Int) (st : Ledger) :
    RunStats :=
  let p := crawler_last_run crawler_id st
  let last_run_id := p.1
  let last_run_time := p.2
  let timeout := now - TIMEOUT
  let running : Bool :=
    match last_run_time with
    | none => false
    | some t => decide (t > timeout)
  let q := st.records.filter (fun r => r.crawler_id == crawler_id)
  let section_data : List CrawlerState → ScopeStats := fun sq =>
    let okCount : Int := ((sq.filter
      (fun r => r.status == STATUS_OK)).length : Int)
    let failCount : Int := ((sq.filter
      (fun r => r.status == STATUS_FAIL)).length : Int)
    { ok := if truthy last_run_id then okCount - 1 else 0
      fail := if truthy last_run_id then failCount else 0 }
  let lastScope := section_data
    (q.filter (fun r => r.crawler_run == last_run_id))
  let allScope := section_data q
  { running := running
    last := { ok := lastScope.ok, fail := lastScope.fail,
              updated := last_run_time, run_id := last_run_id }
    all := allScope }

/-- `CrawlerState.all()` (lines 108-110): the query has no ORDER BY, so the
engine returns the stored rows in an unspecified order.  `isListAllResult`
states that guarantee; this executable refinement returns the bookkeeping's
insertion order, one admissible order among all permutations, and no
theorem relies on the particular order it returns. -/
def all (st : Ledger) : List CrawlerState := st.records

/-- The values appearing in the flat mapping produced by `to_dict`. -/
inductive Value where
  | vnull
  | vnat (n : Nat)
  | vint (n : Int)
  | vstr (s : String)
  | vmap (m : List (String × String))
deriving DecidableEq

/-- A nullable string column as a dictionary value. -/
def optStr : Option String → Value
  | none => Value.vnull
  | some s => Value.vstr s

/-- The nullable JSONB `meta` column as a dictionary value. -/
def optMap : Option (List (String × String)) → Value
  | none => Value.vnull
  | some m => Value.vmap m

/-- `CrawlerState.to_dict` (lines 112-126): the serialization projection, as
an association list in the source's key order. -/
def to_dict (r : CrawlerState) : List (String × Value) :=
  [("id", Value.vnat r.id),
   ("status", Value.vstr r.status),
   ("crawler_id", Value.vstr r.crawler_id),
   ("crawler_run", optStr r.crawler_run),
   ("content_hash", optStr r.content_hash),
   ("foreign_id", optStr r.foreign_id),
   ("error_type", optStr r.error_type),
   ("error_message", optStr r.error_message),
   ("error_details", optStr r.error_details),
   ("meta", optMap r.meta),
   ("collection_id", Value.vint r.collection_id),
   ("created_at", Value.vint r.created_at)]

/-- Decode a `Value` back into a `Nat` field. -/
def asNat : Option Value → Option Nat
  | some (CrawlerState.Value.vnat n) => some n
  | _ => none

/-- Decode a `Value` back into an `Int` field. -/
def asInt : Option Value → Option Int
  | some (CrawlerState.Value.vint n) => some n
  | _ => none

/-- Decode a `Value` back into a `String` field. -/
def asStr : Option Value → Option String
  | some (CrawlerState.Value.vstr s) => some s
  | _ => none

/-- Decode a `Value` back into a nullable string field. -/
def asOptStr : Option Value → Option (Option String)
  | some Value.vnull => some none
  | some (CrawlerState.Value.vstr s) => some (some s)
  | _ => none

/-- Decode a `Value` back into the nullable `meta` field. -/
def asOptMap : Option Value → Option (Option (List (String × String)))
  | some Value.vnull => some none
  | some (CrawlerState.Value.vmap m) => some (some m)
  | _ => none

/-- Modelled from the spec: the repository contains no deserializer for the
`to_dict` projection, so the reconstruction half of the spec's round-trip
property ("serializing an `OutcomeRecord` via the projection and back") is
modelled here: each of the twelve fields is read back from the flat mapping
produced by the projection, absent optional fields staying absent. -/
def from_dict (d : List (String × Value)) : Option CrawlerState := do
  let id ← asNat (d.lookup "id")
  let status ← asStr (d.lookup "status")
  let crawler_id ← asStr (d.lookup "crawler_id")
  let crawler_run ← asOptStr (d.lookup "crawler_run")
  let content_hash ← asOptStr (d.lookup "content_hash")
  let foreign_id ← asOptStr (d.lookup "foreign_id")
  let error_type ← asOptStr (d.lookup "error_type")
  let error_message ← asOptStr (d.lookup "error_message")
  let error_details ← asOptStr (d.lookup "error_details")
  let meta ← asOptMap (d.lookup "meta")
  let collection_id ← asInt (d.lookup "collection_id")
  let created_at ← asInt (d.lookup "created_at")
  pure { id, status, crawler_id, crawler_run, content_hash, foreign_id,
         error_type, error_message, error_details, meta, collection_id,
         created_at }

end CrawlerState

/-- A report operation against the ledger, for quantifying over all
sequences of reports. -/
inductive Op where
  | stub (collection_id : Int) (crawler_id : String)
      (crawler_run : Option String) (now : Int)
  | ok (meta : Metadata) (collection_id : Int) (now : Int)
  | fail (meta : Metadata) (collection_id : Int)
      (error_type error_message error_details : Option String) (now : Int)

/-- Apply one report operation to the ledger. -/
def applyOp (st : Ledger) : Op → Ledger
  | Op.stub collection_id crawler_id crawler_run now =>
    (CrawlerState.store_stub st now collection_id crawler_id crawler_run).1
  | Op.ok meta collection_id now =>
    (CrawlerState.store_ok st now meta collection_id).1
  | Op.fail meta collection_id et em ed now =>
    (CrawlerState.store_fail st now meta collection_id et em ed).1

/-- Apply a sequence of report operations in order. -/
def applyOps (ops : List Op) (st : Ledger) : Ledger :=
  ops.foldl applyOp st

/-- The error-field invariant stated by the spec: the three diagnostic
columns are populated only on `FAIL` rows, except the synthetic stub row,
which is `OK` with `error_type = "init"` and no other error fields. -/
def errorFieldsOnlyOnFail (r : CrawlerState) : Prop :=
  r.status = CrawlerState.STATUS_FAIL ∨
  (r.error_type = none ∧ r.error_message = none ∧ r.error_details = none) ∨
  (r.status = CrawlerState.STATUS_OK ∧ r.error_type = some "init" ∧
    r.error_message = none ∧ r.error_details = none)

/-- A concrete row used to exercise the serialization projection. -/
def sampleRecord : CrawlerState :=
  { id := 7
    crawler_id := "crawlerA"
    crawler_run := some "run1"
    content_hash := none
    foreign_id := some "doc-1"
    status := CrawlerState.STATUS_OK
    error_type := none
    error_message := none
    error_details := none
    meta := some [("title", "x")]
    collection_id := 3
    created_at := 42 }

/-- From the claim's words: the `last` scope — the crawler's records whose
`crawler_run` equals `lastRunId`. -/
def claimScopeLast (c : String) (lrid : Option String) (st : Ledger) :
    List CrawlerState :=
  st.records.filter (fun r => r.crawler_id == c && r.crawler_run == lrid)

/-- From the claim's words: the `all` scope — every record of the crawler. -/
def claimScopeAll (c : String) (st : Ledger) : List CrawlerState :=
  st.records.filter (fun r => r.crawler_id == c)

/-- From the claim's words: the count of records with status OK in a scope. -/
def claimOkCount (l : List CrawlerState) : Int :=
  ((l.filter (fun r => r.status == CrawlerState.STATUS_OK)).length : Int)

/-- From the claim's words: the count of records with status FAIL in a
scope. -/
def claimFailCount (l : List CrawlerState) : Int :=
  ((l.filter (fun r => r.status == CrawlerState.STATUS_FAIL)).length : Int)

/-- Item descriptor tagged with run `run1`, used in failure reports. -/
def metaFailRun1 : Metadata :=
  { crawler := "crawlerA", crawler_run := some "run1", foreign_id := none,
    content_hash := none, attr_dict := [] }

/-- Item descriptor whose run identifier is the empty string. -/
def metaEmptyRun : Metadata :=
  { crawler := "crawlerA", crawler_run := some "", foreign_id := none,
    content_hash := none, attr_dict := [] }

/-- Item descriptor tagged `run1` for a successful item. -/
def metaOkRun1 : Metadata :=
  { crawler := "crawlerA", crawler_run := some "run1",
    foreign_id := some "doc-1", content_hash := some "h1",
    attr_dict := [("title", "x")] }

/-- One stub, one success and one failure, all tagged `run1`. -/
def ledgerRun1Mixed : Ledger :=
  applyOps
    [Op.stub 1 "crawlerA" (some "run1") 10,
     Op.ok metaOkRun1 1 11,
     Op.fail metaFailRun1 1 (some "terr") none none 12] emptyLedger

/-- A single failure whose run identifier is the empty string. -/
def ledgerEmptyRun : Ledger :=
  (CrawlerState.store_fail emptyLedger 5 metaEmptyRun 1).1

/-- A single failure tagged `run1`, with no stub and no successes. -/
def ledgerOnlyFail : Ledger :=
  (CrawlerState.store_fail emptyLedger 5 metaFailRun1 1 (some "e")).1

/-- Two stubs created at the same timestamp, runs `run1` then `run2`. -/
def ledgerTie : Ledger :=
  applyOps
    [Op.stub 1 "crawlerA" (some "run1") 7,
     Op.stub 1 "crawlerA" (some "run2") 7] emptyLedger

/-- A single stub recorded at time 0, queried at time 61. -/
def ledgerOld : Ledger :=
  (CrawlerState.store_stub emptyLedger 0 1 "crawlerA" (some "run1")).1

/-- A named run followed by a later record with no run identifier. -/
def ledgerMixedNoRun : Ledger :=
  applyOps
    [Op.stub 1 "crawlerA" (some "run1") 0,
     Op.stub 1 "crawlerA" none 100] emptyLedger

/-- What `ORDER BY created_at DESC LIMIT 1` guarantees about the row the
engine returns for a crawler: it is one of the crawler's rows and no row of
that crawler was created later.  Which row among equal `created_at` values
is returned is engine-chosen. -/
def isLastCreatedRow (c : String) (l : List CrawlerState)
    (b : CrawlerState) : Prop :=
  b ∈ l ∧ b.crawler_id = c ∧
    ∀ r ∈ l, r.crawler_id = c → r.created_at ≤ b.created_at

/-- What the ORDER-BY-free query `db.session.query(CrawlerState)`
guarantees about a listing the engine returns: it holds exactly the stored
rows — in an engine-chosen order. -/
def isListAllResult (st : Ledger) (l : List CrawlerState) : Prop :=
  l.Perm st.records

/-- The first row of `ledgerTie`: id 1, run `run1`, created at time 7. -/
def tieRow1 : CrawlerState :=
  (CrawlerState.store_stub emptyLedger 7 1 "crawlerA" (some "run1")).2

/-- The second row of `ledgerTie`: id 2, run `run2`, also created at
time 7. -/
def tieRow2 : CrawlerState :=
  (CrawlerState.store_stub
    (CrawlerState.store_stub emptyLedger 7 1 "crawlerA" (some "run1")).1
    7 1 "crawlerA" (some "run2")).2

/-- C4: `RecordStub` always succeeds and appends exactly one record with
`status = OK`, `error_type = "init"`, the given collection, crawler and run
identifiers, and absent `content_hash`, `foreign_id` and `metadata`, with no
`error_message` or `error_details`. -/
theorem C4_store_stub_appends_marker (st : Ledger) (now : Int)
    (collection_id : Int) (crawler_id : String)
    (crawler_run : Option String) :
    let res := CrawlerState.store_stub st now collection_id crawler_id
      crawler_run
    res.1.records = st.records ++ [res.2] ∧
    res.2.status = CrawlerState.STATUS_OK ∧
    res.2.error_type = some "init" ∧
    res.2.collection_id = collection_id ∧
    res.2.crawler_id = crawler_id ∧
    res.2.crawler_run = crawler_run ∧
    res.2.content_hash = none ∧
    res.2.foreign_id = none ∧
    res.2.meta = none ∧
    res.2.error_message = none ∧
    res.2.error_details = none := by
  refine ⟨rfl, rfl, rfl, rfl, rfl, rfl, rfl, rfl, rfl, rfl, rfl⟩

/-- C5: every record created by the three write operations satisfies the
error-field invariant: the diagnostic fields are populated only on `FAIL`
rows — `store_fail` attaches each of the three verbatim, each independently
optional — except the stub record, which is `OK` with `error_type = "init"`
and no other error fields; `store_ok` sets no error fields at all. -/
theorem C5_error_field_invariant :
    (∀ st now collection_id crawler_id crawler_run,
      let r := (CrawlerState.store_stub st now collection_id crawler_id
        crawler_run).2
      errorFieldsOnlyOnFail r ∧ r.status = CrawlerState.STATUS_OK ∧
        r.error_type = some "init" ∧ r.error_message = none ∧
        r.error_details = none) ∧
    (∀ st now meta collection_id,
      let r := (CrawlerState.store_ok st now meta collection_id).2
      errorFieldsOnlyOnFail r ∧ r.status = CrawlerState.STATUS_OK ∧
        r.error_type = none ∧ r.error_message = none ∧
        r.error_details = none) ∧
    (∀ st now meta collection_id et em ed,
      let r := (CrawlerState.store_fail st now meta collection_id
        et em ed).2
      errorFieldsOnlyOnFail r ∧ r.status = CrawlerState.STATUS_FAIL ∧
        r.error_type = et ∧ r.error_message = em ∧ r.error_details = ed) :=
  ⟨fun _ _ _ _ _ => ⟨Or.inr (Or.inr ⟨rfl, rfl, rfl, rfl⟩),
      rfl, rfl, rfl, rfl⟩,
   fun _ _ _ _ => ⟨Or.inr (Or.inl ⟨rfl, rfl, rfl⟩), rfl, rfl, rfl, rfl⟩,
   fun _ _ _ _ _ _ _ => ⟨Or.inl rfl, rfl, rfl, rfl, rfl⟩⟩

/-- C6 counterexample: the claim lists `metadata` among the twelve keys of
the projection, but on a concrete record the projection's keys contain
`meta` and do not contain `metadata` (line 123 of the source uses the key
`'meta'`). -/
theorem C6_counterexample_meta_key :
    "metadata" ∉ (CrawlerState.to_dict sampleRecord).map Prod.fst ∧
    "meta" ∈ (CrawlerState.to_dict sampleRecord).map Prod.fst := by
  decide

/-- C6 (amended): `to_dict` returns a flat mapping with exactly the twelve
keys `id, status, crawler_id, crawler_run, content_hash, foreign_id,
error_type, error_message, error_details, meta, collection_id, created_at`
(the metadata field's key is `meta`, not `metadata`), each mapped to the
corresponding field's value. -/
theorem C6_to_dict_twelve_keys (r : CrawlerState) :
    (CrawlerState.to_dict r).map Prod.fst =
      ["id", "status", "crawler_id", "crawler_run", "content_hash",
       "foreign_id", "error_type", "error_message", "error_details",
       "meta", "collection_id", "created_at"] ∧
    (CrawlerState.to_dict r).lookup "id" = some (CrawlerState.Value.vnat r.id) ∧
    (CrawlerState.to_dict r).lookup "status" = some (CrawlerState.Value.vstr r.status) ∧
    (CrawlerState.to_dict r).lookup "crawler_id" =
      some (CrawlerState.Value.vstr r.crawler_id) ∧
    (CrawlerState.to_dict r).lookup "crawler_run" =
      some (CrawlerState.optStr r.crawler_run) ∧
    (CrawlerState.to_dict r).lookup "content_hash" =
      some (CrawlerState.optStr r.content_hash) ∧
    (CrawlerState.to_dict r).lookup "foreign_id" =
      some (CrawlerState.optStr r.foreign_id) ∧
    (CrawlerState.to_dict r).lookup "error_type" =
      some (CrawlerState.optStr r.error_type) ∧
    (CrawlerState.to_dict r).lookup "error_message" =
      some (CrawlerState.optStr r.error_message) ∧
    (CrawlerState.to_dict r).lookup "error_details" =
      some (CrawlerState.optStr r.error_details) ∧
    (CrawlerState.to_dict r).lookup "meta" =
      some (CrawlerState.optMap r.meta) ∧
    (CrawlerState.to_dict r).lookup "collection_id" =
      some (CrawlerState.Value.vint r.collection_id) ∧
    (CrawlerState.to_dict r).lookup "created_at" =
      some (CrawlerState.Value.vint r.created_at) :=
  ⟨rfl, rfl, rfl, rfl, rfl, rfl, rfl, rfl, rfl, rfl, rfl, rfl, rfl⟩

/-- C8: serializing a record through the `to_dict` projection and
reconstructing it from the resulting flat mapping preserves all twelve
fields exactly, with absent optional fields preserved as absent. -/
theorem C8_round_trip (r : CrawlerState) :
    CrawlerState.from_dict (CrawlerState.to_dict r) = some r := by
  obtain ⟨i, ci, crun, ch, fid, s, et, em, ed, m, col, ca⟩ := r
  cases crun <;> cases ch <;> cases fid <;> cases et <;> cases em <;>
    cases ed <;> cases m <;> rfl

/-- Two successive filters collapse into one filter with the conjunction of
the predicates. -/
theorem filter_filter_eq {α : Type} (p q : α → Bool) (l : List α) :
    (l.filter p).filter q = l.filter (fun a => p a && q a) := by
  induction l with
  | nil => rfl
  | cons a l ih =>
    cases hp : p a <;> cases hq : q a <;>
      simp [List.filter_cons, hp, hq, ih]

/-- The four count fields of `crawler_stats`, written with the scopes of the
claim's wording, plus the `run_id` and `updated` entries. -/
theorem stats_fields (st : Ledger) (c : String) (now : Int) :
    (CrawlerState.crawler_stats c now st).last.ok =
      (if CrawlerState.truthy (CrawlerState.crawler_last_run c st).1 then
        claimOkCount
          (claimScopeLast c (CrawlerState.crawler_last_run c st).1 st) - 1
      else 0) ∧
    (CrawlerState.crawler_stats c now st).last.fail =
      (if CrawlerState.truthy (CrawlerState.crawler_last_run c st).1 then
        claimFailCount
          (claimScopeLast c (CrawlerState.crawler_last_run c st).1 st)
      else 0) ∧
    (CrawlerState.crawler_stats c now st).all.ok =
      (if CrawlerState.truthy (CrawlerState.crawler_last_run c st).1 then
        claimOkCount (claimScopeAll c st) - 1
      else 0) ∧
    (CrawlerState.crawler_stats c now st).all.fail =
      (if CrawlerState.truthy (CrawlerState.crawler_last_run c st).1 then
        claimFailCount (claimScopeAll c st)
      else 0) ∧
    (CrawlerState.crawler_stats c now st).last.run_id =
      (CrawlerState.crawler_last_run c st).1 ∧
    (CrawlerState.crawler_stats c now st).last.updated =
      (CrawlerState.crawler_last_run c st).2 := by
  refine ⟨?_, ?_, rfl, rfl, rfl, rfl⟩ <;>
    simp only [CrawlerState.crawler_stats, claimScopeLast, claimScopeAll,
      claimOkCount, claimFailCount, filter_filter_eq]

/-- The `running` field of `crawler_stats` as a function of the last run
time. -/
theorem stats_running_eq (st : Ledger) (c : String) (now : Int) :
    (CrawlerState.crawler_stats c now st).running =
      (match (CrawlerState.crawler_last_run c st).2 with
       | none => false
       | some t => decide (t > now - CrawlerState.TIMEOUT)) := rfl

/-- C1 counterexample: the claim keys the `-1` correction and the zero floor
on `lastRunId` being *present*/*absent*, but the code keys them on Python
truthiness.  On a ledger whose only record is a failure tagged with the
empty-string run id, `lastRunId` is present (`some ""`) and the `last` scope
holds one FAIL record, yet `crawler_stats` reports `last.fail = 0` where the
claim demands the count 1 (and likewise reports `last.ok = 0`, not
`count - 1 = -1`). -/
theorem C1_counterexample_empty_run :
    ((CrawlerState.crawler_last_run "crawlerA" ledgerEmptyRun).1).isSome =
      true ∧
    claimFailCount
      (claimScopeLast "crawlerA"
        (CrawlerState.crawler_last_run "crawlerA" ledgerEmptyRun).1
        ledgerEmptyRun) = 1 ∧
    (CrawlerState.crawler_stats "crawlerA" 5 ledgerEmptyRun).last.fail = 0 ∧
    (CrawlerState.crawler_stats "crawlerA" 5 ledgerEmptyRun).last.ok = 0 := by
  refine ⟨by decide, by decide, by decide, by decide⟩

/-- C1 (amended): for every ledger state and crawler id, `Stats` computes,
for the scopes `last` (records of the crawler whose `crawler_run` equals
`lastRunId`) and `all` (every record of the crawler): `ok` = the count of
OK records in the scope minus 1 when `lastRunId` is present *and
non-empty*, and `fail` = the count of FAIL records in the scope under the
same condition; when `lastRunId` is absent *or the empty string* it reports
`ok = 0` and `fail = 0` for both scopes regardless of any matching records.
In particular, after one stub, one success and one failure all tagged
`run1`, `Stats` yields `last.ok = 1`, `last.fail = 1`, `all.ok = 1`,
`all.fail = 1`. -/
theorem C1_stats_counts (st : Ledger) (c : String) (now : Int) :
    (CrawlerState.crawler_stats c now st).last.ok =
      (if CrawlerState.truthy (CrawlerState.crawler_last_run c st).1 then
        claimOkCount
          (claimScopeLast c (CrawlerState.crawler_last_run c st).1 st) - 1
      else 0) ∧
    (CrawlerState.crawler_stats c now st).last.fail =
      (if CrawlerState.truthy (CrawlerState.crawler_last_run c st).1 then
        claimFailCount
          (claimScopeLast c (CrawlerState.crawler_last_run c st).1 st)
      else 0) ∧
    (CrawlerState.crawler_stats c now st).all.ok =
      (if CrawlerState.truthy (CrawlerState.crawler_last_run c st).1 then
        claimOkCount (claimScopeAll c st) - 1
      else 0) ∧
    (CrawlerState.crawler_stats c now st).all.fail =
      (if CrawlerState.truthy (CrawlerState.crawler_last_run c st).1 then
        claimFailCount (claimScopeAll c st)
      else 0) ∧
    (CrawlerState.crawler_stats "crawlerA" 12 ledgerRun1Mixed).last.ok = 1 ∧
    (CrawlerState.crawler_stats "crawlerA" 12 ledgerRun1Mixed).last.fail
      = 1 ∧
    (CrawlerState.crawler_stats "crawlerA" 12 ledgerRun1Mixed).all.ok = 1 ∧
    (CrawlerState.crawler_stats "crawlerA" 12 ledgerRun1Mixed).all.fail
      = 1 := by
  obtain ⟨h1, h2, h3, h4, _, _⟩ := stats_fields st c now
  exact ⟨h1, h2, h3, h4, by decide, by decide, by decide, by decide⟩

/-- C9 (amended): whenever `lastRunId` for a crawler is present and
non-empty while the `last` scope contains zero OK records (for example a
run that recorded only failures and no stub), `crawler_stats` reports
`last.ok = -1`: the subtraction of 1 is applied unconditionally whenever
`lastRunId` is truthy, not only when a stub record exists in the scope. -/
theorem C9_negative_ok_count (st : Ledger) (c : String) (now : Int)
    (h1 : CrawlerState.truthy (CrawlerState.crawler_last_run c st).1 = true)
    (h2 : claimOkCount
      (claimScopeLast c (CrawlerState.crawler_last_run c st).1 st) = 0) :
    (CrawlerState.crawler_stats c now st).last.ok = -1 := by
  have h := (stats_fields st c now).1
  rw [h, h1, h2]
  simp

/-- C9 witness: one failure tagged `run1`, no stub and no successes: the
last run id is truthy, the scope has zero OK records, and the reported
`last.ok` is `-1`. -/
theorem C9_negative_ok_count_witness :
    CrawlerState.truthy
      (CrawlerState.crawler_last_run "crawlerA" ledgerOnlyFail).1 = true ∧
    claimOkCount
      (claimScopeLast "crawlerA"
        (CrawlerState.crawler_last_run "crawlerA" ledgerOnlyFail).1
        ledgerOnlyFail) = 0 ∧
    (CrawlerState.crawler_stats "crawlerA" 6 ledgerOnlyFail).last.ok = -1 :=
  ⟨by decide, by decide,
    C9_negative_ok_count ledgerOnlyFail "crawlerA" 6 (by decide) (by decide)⟩

/-- C9 counterexample: the claim as stated triggers on a *present*
`crawler_run`; with the most recent record tagged by the present but empty
run id `some ""` and zero OK records in that run, the code reports
`last.ok = 0`, not the claimed `-1`. -/
theorem C9_counterexample_empty_run :
    ((CrawlerState.crawler_last_run "crawlerA" ledgerEmptyRun).1).isSome =
      true ∧
    claimOkCount
      (claimScopeLast "crawlerA"
        (CrawlerState.crawler_last_run "crawlerA" ledgerEmptyRun).1
        ledgerEmptyRun) = 0 ∧
    ¬((CrawlerState.crawler_stats "crawlerA" 5 ledgerEmptyRun).last.ok
      = -1) := by
  refine ⟨by decide, by decide, by decide⟩

/-- C10: whenever the most recent record of a crawler has an absent or
empty-string `crawler_run`, `crawler_stats` reports `ok = 0` and `fail = 0`
for both scopes — even if the crawler has earlier records belonging to
named runs — while `running` is still computed from that most recent
record's timestamp. -/
theorem C10_zero_floor_on_falsy_run (st : Ledger) (c : String) (now : Int)
    (h : (CrawlerState.crawler_last_run c st).1 = none ∨
         (CrawlerState.crawler_last_run c st).1 = some "") :
    (CrawlerState.crawler_stats c now st).last.ok = 0 ∧
    (CrawlerState.crawler_stats c now st).last.fail = 0 ∧
    (CrawlerState.crawler_stats c now st).all.ok = 0 ∧
    (CrawlerState.crawler_stats c now st).all.fail = 0 ∧
    ∀ t, (CrawlerState.crawler_last_run c st).2 = some t →
      ((CrawlerState.crawler_stats c now st).running = true ↔
        now - t < CrawlerState.TIMEOUT) := by
  have ht : CrawlerState.truthy (CrawlerState.crawler_last_run c st).1 =
      false := by
    rcases h with h | h <;> rw [h] <;> rfl
  obtain ⟨h1, h2, h3, h4, _, _⟩ := stats_fields st c now
  rw [ht] at h1 h2 h3 h4
  refine ⟨by simpa using h1, by simpa using h2, by simpa using h3,
    by simpa using h4, ?_⟩
  intro t htime
  rw [stats_running_eq, htime]
  simp only [decide_eq_true_eq, CrawlerState.TIMEOUT]
  omega

/-- C10 witness: a named `run1` record at time 0 followed by a record with
no run id at time 100: the counts floor to zero although an earlier named
run exists, and `running` at time 130 follows the latest timestamp. -/
theorem C10_zero_floor_on_falsy_run_witness :
    (CrawlerState.crawler_last_run "crawlerA" ledgerMixedNoRun).1 = none ∧
    (∃ r ∈ ledgerMixedNoRun.records, r.crawler_run = some "run1") ∧
    ((CrawlerState.crawler_stats "crawlerA" 130 ledgerMixedNoRun).last.ok
      = 0 ∧
     (CrawlerState.crawler_stats "crawlerA" 130 ledgerMixedNoRun).last.fail
      = 0 ∧
     (CrawlerState.crawler_stats "crawlerA" 130 ledgerMixedNoRun).all.ok
      = 0 ∧
     (CrawlerState.crawler_stats "crawlerA" 130 ledgerMixedNoRun).all.fail
      = 0 ∧
     ∀ t, (CrawlerState.crawler_last_run "crawlerA" ledgerMixedNoRun).2 =
        some t →
       ((CrawlerState.crawler_stats "crawlerA" 130 ledgerMixedNoRun).running
          = true ↔ 130 - t < CrawlerState.TIMEOUT)) :=
  ⟨by decide, by decide,
    C10_zero_floor_on_falsy_run ledgerMixedNoRun "crawlerA" 130
      (Or.inl (by decide))⟩

/-- C3: `running` is true exactly when the last run timestamp is present
and strictly less than `TIMEOUT = 60` minutes old; a crawler whose most
recent record is more than 60 minutes old reports `running = false`, and a
crawler with no records reports `running = false`. -/
theorem C3_running_timeout (st : Ledger) (c : String) (now : Int) :
    ((CrawlerState.crawler_stats c now st).running = true ↔
      ∃ t, (CrawlerState.crawler_last_run c st).2 = some t ∧
        now - t < CrawlerState.TIMEOUT) ∧
    (∀ t, (CrawlerState.crawler_last_run c st).2 = some t →
      CrawlerState.TIMEOUT < now - t →
      (CrawlerState.crawler_stats c now st).running = false) ∧
    ((∀ r ∈ st.records, r.crawler_id ≠ c) →
      (CrawlerState.crawler_stats c now st).running = false) := by
  refine ⟨?_, ?_, ?_⟩
  · rw [stats_running_eq]
    cases h2 : (CrawlerState.crawler_last_run c st).2 with
    | none => simp
    | some t =>
      simp only [decide_eq_true_eq, Option.some.injEq, CrawlerState.TIMEOUT]
      constructor
      · intro hgt
        exact ⟨t, rfl, by omega⟩
      · rintro ⟨t', rfl, hlt⟩
        omega
  · intro t h2 hgt
    rw [stats_running_eq, h2]
    simp only [decide_eq_false_iff_not, CrawlerState.TIMEOUT] at *
    omega
  · intro hno
    have hnil : st.records.filter (fun r => r.crawler_id == c) = [] := by
      rw [List.filter_eq_nil_iff]
      intro r hr
      simp only [beq_iff_eq]
      exact hno r hr
    rw [stats_running_eq]
    unfold CrawlerState.crawler_last_run
    rw [hnil]
    rfl

/-- C3 witness: a stub recorded at time 0 and queried at time 61 reports
`running = false`. -/
theorem C3_running_timeout_witness :
    (CrawlerState.crawler_last_run "crawlerA" ledgerOld).2 = some 0 ∧
    CrawlerState.TIMEOUT < 61 - 0 ∧
    (CrawlerState.crawler_stats "crawlerA" 61 ledgerOld).running = false :=
  ⟨by decide, by decide,
    (C3_running_timeout ledgerOld "crawlerA" 61).2.1 0 (by decide)
      (by decide)⟩

/-- `lastRecord` returns nothing exactly on the empty list. -/
theorem lastRecord_eq_none {l : List CrawlerState} :
    CrawlerState.lastRecord l = none ↔ l = [] := by
  cases l with
  | nil => simp [CrawlerState.lastRecord]
  | cons r rest =>
    cases hr : CrawlerState.lastRecord rest with
    | none => simp [CrawlerState.lastRecord, hr]
    | some b =>
      have hh : CrawlerState.lastRecord (r :: rest) =
          if b.created_at ≥ r.created_at then some b else some r := by
        simp only [CrawlerState.lastRecord]
        rw [hr]
      rw [hh]
      split <;> simp

/-- The row picked by `lastRecord` belongs to the list. -/
theorem lastRecord_mem :
    ∀ {l : List CrawlerState} {b : CrawlerState},
      CrawlerState.lastRecord l = some b → b ∈ l := by
  intro l
  induction l with
  | nil =>
    intro b h
    simp [CrawlerState.lastRecord] at h
  | cons r rest ih =>
    intro b h
    cases hr : CrawlerState.lastRecord rest with
    | none =>
      have hh : CrawlerState.lastRecord (r :: rest) = some r := by
        simp only [CrawlerState.lastRecord]
        rw [hr]
      rw [hh] at h
      injection h with h
      subst h
      exact List.mem_cons_self r rest
    | some b' =>
      have hh : CrawlerState.lastRecord (r :: rest) =
          if b'.created_at ≥ r.created_at then some b' else some r := by
        simp only [CrawlerState.lastRecord]
        rw [hr]
      rw [hh] at h
      by_cases hc : b'.created_at ≥ r.created_at
      · rw [if_pos hc] at h
        injection h with h
        subst h
        exact List.mem_cons_of_mem _ (ih hr)
      · rw [if_neg hc] at h
        injection h with h
        subst h
        exact List.mem_cons_self r rest

/-- Every report operation appends exactly one row, stamped with the
current value of the id sequence, and advances the sequence. -/
theorem applyOp_step (st : Ledger) (op : Op) :
    ∃ r, (applyOp st op).records = st.records ++ [r] ∧
      r.id = st.nextId ∧ (applyOp st op).nextId = st.nextId + 1 := by
  cases op with
  | stub collection_id crawler_id crawler_run now =>
    exact ⟨_, rfl, rfl, rfl⟩
  | ok meta collection_id now =>
    exact ⟨_, rfl, rfl, rfl⟩
  | fail meta collection_id et em ed now =>
    exact ⟨_, rfl, rfl, rfl⟩

/-- Running a sequence of report operations preserves the id invariants and
adds one row per operation. -/
theorem applyOps_invariant :
    ∀ (ops : List Op) (st : Ledger),
      (∀ r ∈ st.records, r.id < st.nextId) →
      List.Pairwise (fun a b => a.id < b.id) st.records →
      (∀ r ∈ (applyOps ops st).records, r.id < (applyOps ops st).nextId) ∧
      List.Pairwise (fun a b => a.id < b.id) (applyOps ops st).records ∧
      (applyOps ops st).records.length = st.records.length + ops.length := by
  intro ops
  induction ops with
  | nil =>
    intro st h1 h2
    exact ⟨h1, h2, rfl⟩
  | cons op ops ih =>
    intro st h1 h2
    obtain ⟨r, hrec, hid, hnext⟩ := applyOp_step st op
    have h1' : ∀ x ∈ (applyOp st op).records,
        x.id < (applyOp st op).nextId := by
      intro x hx
      rw [hrec] at hx
      rw [hnext]
      rcases List.mem_append.mp hx with hx | hx
      · exact Nat.lt_succ_of_lt (h1 x hx)
      · rw [List.mem_singleton] at hx
        subst hx
        rw [hid]
        exact Nat.lt_succ_self _
    have h2' : List.Pairwise (fun a b => a.id < b.id)
        (applyOp st op).records := by
      rw [hrec, List.pairwise_append]
      refine ⟨h2, by simp, ?_⟩
      intro a ha b hb
      rw [List.mem_singleton] at hb
      subst hb
      rw [hid]
      exact h1 a ha
    have hlen : (applyOp st op).records.length = st.records.length + 1 := by
      rw [hrec]
      simp
    have hstep : applyOps (op :: ops) st = applyOps ops (applyOp st op) :=
      rfl
    have hrest := ih (applyOp st op) h1' h2'
    refine ⟨?_, ?_, ?_⟩
    · rw [hstep]
      exact hrest.1
    · rw [hstep]
      exact hrest.2.1
    · rw [hstep, hrest.2.2, hlen]
      simp only [List.length_cons]
      omega

/-- The row picked by `lastRecord` has maximal `created_at` among the rows
of the list. -/
theorem lastRecord_created_le :
    ∀ {l : List CrawlerState} {b : CrawlerState},
      CrawlerState.lastRecord l = some b →
      ∀ r ∈ l, r.created_at ≤ b.created_at := by
  intro l
  induction l with
  | nil =>
    intro b h
    simp [CrawlerState.lastRecord] at h
  | cons a rest ih =>
    intro b h
    cases hr : CrawlerState.lastRecord rest with
    | none =>
      have hh : CrawlerState.lastRecord (a :: rest) = some a := by
        simp only [CrawlerState.lastRecord]
        rw [hr]
      rw [hh] at h
      injection h with h
      subst h
      have hnil : rest = [] := lastRecord_eq_none.mp hr
      subst hnil
      intro r hrr
      rw [List.mem_singleton] at hrr
      subst hrr
      exact le_refl _
    | some b' =>
      have hh : CrawlerState.lastRecord (a :: rest) =
          if b'.created_at ≥ a.created_at then some b' else some a := by
        simp only [CrawlerState.lastRecord]
        rw [hr]
      rw [hh] at h
      have ihs := ih hr
      by_cases hc : b'.created_at ≥ a.created_at
      · rw [if_pos hc] at h
        injection h with h
        subst h
        intro r hrr
        rcases List.mem_cons.mp hrr with h' | h'
        · subst h'
          exact hc
        · exact ihs r h'
      · rw [if_neg hc] at h
        injection h with h
        subst h
        have h2 := lt_of_not_ge hc
        intro r hrr
        rcases List.mem_cons.mp hrr with h' | h'
        · subst h'
          exact le_refl _
        · exact le_of_lt (lt_of_le_of_lt (ihs r h') h2)

/-- C2 counterexample: the claim asserts the query breaks `created_at` ties
toward the highest id, but `ORDER BY created_at DESC LIMIT 1` has no
secondary sort key, so any maximal-`created_at` row is an admissible engine
result.  On `ledgerTie`, the lower-id row `tieRow1` (run `run1`) satisfies
everything the query guarantees, while the row `tieRow2` with the same
`created_at` has a higher id and a different run — so the engine may
legitimately return `run1` where the claim demands `run2`. -/
theorem C2_counterexample_tie :
    isLastCreatedRow "crawlerA" ledgerTie.records tieRow1 ∧
    tieRow2 ∈ ledgerTie.records ∧
    tieRow2.crawler_id = "crawlerA" ∧
    tieRow2.created_at = tieRow1.created_at ∧
    tieRow1.id < tieRow2.id ∧
    tieRow1.crawler_run ≠ tieRow2.crawler_run := by
  refine ⟨⟨by decide, by decide, by decide⟩, by decide, by decide,
    by decide, by decide, by decide⟩

/-- C2 (amended): for every crawler id, `crawler_last_run` returns the
`crawler_run` and `created_at` of a most-recently-created record for that
crawler — a record with maximal `created_at`; the choice among records with
equal `created_at` is engine-determined, not guaranteed to be the highest
id — and returns the absent/absent pair, as a normal value rather than an
error, exactly when the crawler has no records. -/
theorem C2_last_run_spec (st : Ledger) (c : String) :
    (CrawlerState.crawler_last_run c st = (none, none) ↔
      ∀ r ∈ st.records, r.crawler_id ≠ c) ∧
    ((∃ r ∈ st.records, r.crawler_id = c) →
      ∃ b, isLastCreatedRow c st.records b ∧
        CrawlerState.crawler_last_run c st =
          (b.crawler_run, some b.created_at)) := by
  cases hres : CrawlerState.lastRecord
      (st.records.filter (fun r => r.crawler_id == c)) with
  | none =>
    have hnil : st.records.filter (fun r => r.crawler_id == c) = [] :=
      lastRecord_eq_none.mp hres
    have hval : CrawlerState.crawler_last_run c st = (none, none) := by
      unfold CrawlerState.crawler_last_run
      rw [hres]
    have hnomatch : ∀ r ∈ st.records, r.crawler_id ≠ c := by
      intro r hr hc
      have hmem : r ∈ st.records.filter (fun r => r.crawler_id == c) :=
        List.mem_filter.mpr ⟨hr, by simp [hc]⟩
      rw [hnil] at hmem
      simp at hmem
    refine ⟨⟨fun _ => hnomatch, fun _ => hval⟩, ?_⟩
    rintro ⟨r, hr, hc⟩
    exact absurd hc (hnomatch r hr)
  | some b =>
    have hb : b ∈ st.records.filter (fun r => r.crawler_id == c) :=
      lastRecord_mem hres
    obtain ⟨hbmem, hbc⟩ := List.mem_filter.mp hb
    have hbc' : b.crawler_id = c := by simpa using hbc
    have hval : CrawlerState.crawler_last_run c st =
        (b.crawler_run, some b.created_at) := by
      unfold CrawlerState.crawler_last_run
      rw [hres]
    have hmax := lastRecord_created_le hres
    constructor
    · rw [hval]
      constructor
      · intro heq
        exact absurd (congrArg Prod.snd heq) (by simp)
      · intro hall
        exact absurd hbc' (hall b hbmem)
    · intro _
      refine ⟨b, ⟨hbmem, hbc', ?_⟩, hval⟩
      intro r hr hc
      exact hmax r (List.mem_filter.mpr ⟨hr, by simp [hc]⟩)

/-- C2 witness: on the one-stub ledger, the crawler has a record and the
returned pair comes from a maximal-`created_at` row of that crawler. -/
theorem C2_last_run_spec_witness :
    (∃ r ∈ ledgerOld.records, r.crawler_id = "crawlerA") ∧
    (∃ b, isLastCreatedRow "crawlerA" ledgerOld.records b ∧
      CrawlerState.crawler_last_run "crawlerA" ledgerOld =
        (b.crawler_run, some b.created_at)) := by
  have hex : ∃ r ∈ ledgerOld.records, r.crawler_id = "crawlerA" :=
    ⟨(CrawlerState.store_stub emptyLedger 0 1 "crawlerA" (some "run1")).2,
      by decide, by decide⟩
  exact ⟨hex, (C2_last_run_spec ledgerOld "crawlerA").2 hex⟩

/-- C7 counterexample: the claim asserts the listing is in non-decreasing
id order, but `db.session.query(CrawlerState)` has no ORDER BY, so any
permutation of the stored rows is an admissible engine result.  On the
two-row ledger the reversed listing is admissible yet not id-sorted. -/
theorem C7_counterexample_order :
    isListAllResult ledgerTie ledgerTie.records.reverse ∧
    ¬ List.Pairwise (fun a b => a.id ≤ b.id) ledgerTie.records.reverse := by
  constructor
  · exact List.reverse_perm _
  · decide

/-- C7 (amended): for all sequences of report operations, `ListAll` returns
exactly the records that were inserted — any listing the engine may return
is a permutation of the stored rows, so it has the same membership, one row
per report operation, and pairwise-distinct ids — while the order of the
listing is engine-chosen. -/
theorem C7_list_all_exactly :
    (∀ st : Ledger, isListAllResult st (CrawlerState.all st)) ∧
    (∀ (st : Ledger) (l : List CrawlerState), isListAllResult st l →
      ∀ r, r ∈ l ↔ r ∈ st.records) ∧
    (∀ (st : Ledger) (op : Op), ∃ r,
      (applyOp st op).records = st.records ++ [r]) ∧
    (∀ (ops : List Op) (l : List CrawlerState),
      isListAllResult (applyOps ops emptyLedger) l →
      l.length = ops.length) ∧
    (∀ (ops : List Op) (l : List CrawlerState),
      isListAllResult (applyOps ops emptyLedger) l →
      (l.map (fun r => r.id)).Nodup) := by
  refine ⟨fun st => List.Perm.refl _, ?_, ?_, ?_, ?_⟩
  · intro st l h r
    exact List.Perm.mem_iff h
  · intro st op
    obtain ⟨r, hrec, _, _⟩ := applyOp_step st op
    exact ⟨r, hrec⟩
  · intro ops l h
    have hlen := (applyOps_invariant ops emptyLedger
      (by simp [emptyLedger]) (by simp [emptyLedger])).2.2
    rw [List.Perm.length_eq h, hlen]
    simp [emptyLedger]
  · intro ops l h
    have hpw := (applyOps_invariant ops emptyLedger
      (by simp [emptyLedger]) (by simp [emptyLedger])).2.1
    have hidpw : List.Pairwise (fun a b => a < b)
        ((applyOps ops emptyLedger).records.map (fun r => r.id)) :=
      (List.pairwise_map).mpr hpw
    have hnd : ((applyOps ops emptyLedger).records.map
        (fun r => r.id)).Nodup :=
      List.Pairwise.imp (fun hab => Nat.ne_of_lt hab) hidpw
    exact (List.Perm.nodup_iff
      (List.Perm.map (fun r => r.id) h)).mpr hnd

/-- C7 witness: on the two-row ledger, the stored listing is an admissible
result with the right membership, one row per operation, and distinct
ids. -/
theorem C7_list_all_exactly_witness :
    isListAllResult ledgerTie ledgerTie.records ∧
    (∀ r, r ∈ ledgerTie.records ↔ r ∈ ledgerTie.records) ∧
    ledgerTie.records.length = 2 ∧
    (ledgerTie.records.map (fun r => r.id)).Nodup := by
  have h1 : isListAllResult ledgerTie ledgerTie.records := List.Perm.refl _
  exact ⟨h1,
    C7_list_all_exactly.2.1 ledgerTie ledgerTie.records h1,
    C7_list_all_exactly.2.2.2.1
      [Op.stub 1 "crawlerA" (some "run1") 7,
       Op.stub 1 "crawlerA" (some "run2") 7] ledgerTie.records h1,
    C7_list_all_exactly.2.2.2.2
      [Op.stub 1 "crawlerA" (some "run1") 7,
       Op.stub 1 "crawlerA" (some "run2") 7] ledgerTie.records h1⟩
